import Mathlib

/-!
Verification of the quota-refresh state machine of the vscode-chutes-quota
extension (src/extension.ts). The TypeScript class ChutesQuotaMonitor is
shallowly embedded: JavaScript numbers become exact rationals extended with
the IEEE special values, the mutable fields of the monitor become a state
record, and each method becomes a state-transforming Lean function. The
asynchronous updateQuota method is additionally given a small-step
interleaving model (two concurrent invocations, atomic segments between
await points) to settle the single-flight claims.
-/

/-- JavaScript number, restricted to the values this program can produce:
finite values are modelled as exact rationals, plus Infinity, -Infinity and
NaN. Signed zero is flattened to 0 (the program never observes the sign of
a zero). -/
inductive JSNum where
  | finite : ℚ → JSNum
  | posInf : JSNum
  | negInf : JSNum
  | nan : JSNum
deriving DecidableEq

/-- IEEE division as JavaScript performs it on the modelled values:
finite / 0 is a signed infinity (NaN for 0 / 0), finite / infinity is 0,
infinity / finite keeps or flips the sign, infinity / infinity is NaN and
NaN propagates. -/
def jsDiv : JSNum → JSNum → JSNum
  | .nan, _ => .nan
  | _, .nan => .nan
  | .finite a, .finite b =>
      if b = 0 then
        if a = 0 then .nan
        else if 0 < a then .posInf else .negInf
      else .finite (a / b)
  | .finite _, .posInf => .finite 0
  | .finite _, .negInf => .finite 0
  | .posInf, .finite b => if 0 ≤ b then .posInf else .negInf
  | .negInf, .finite b => if 0 ≤ b then .negInf else .posInf
  | .posInf, .posInf => .nan
  | .posInf, .negInf => .nan
  | .negInf, .posInf => .nan
  | .negInf, .negInf => .nan

/-- IEEE multiplication on the modelled values: infinity times 0 is NaN,
infinity times a nonzero finite keeps or flips the sign, NaN propagates. -/
def jsMul : JSNum → JSNum → JSNum
  | .nan, _ => .nan
  | _, .nan => .nan
  | .finite a, .finite b => .finite (a * b)
  | .posInf, .finite b => if b = 0 then .nan else if 0 < b then .posInf else .negInf
  | .negInf, .finite b => if b = 0 then .nan else if 0 < b then .negInf else .posInf
  | .finite a, .posInf => if a = 0 then .nan else if 0 < a then .posInf else .negInf
  | .finite a, .negInf => if a = 0 then .nan else if 0 < a then .negInf else .posInf
  | .posInf, .posInf => .posInf
  | .posInf, .negInf => .negInf
  | .negInf, .posInf => .negInf
  | .negInf, .negInf => .posInf

/-- IEEE subtraction on the modelled values. -/
def jsSub : JSNum → JSNum → JSNum
  | .nan, _ => .nan
  | _, .nan => .nan
  | .finite a, .finite b => .finite (a - b)
  | .finite _, .posInf => .negInf
  | .finite _, .negInf => .posInf
  | .posInf, .finite _ => .posInf
  | .negInf, .finite _ => .negInf
  | .posInf, .posInf => .nan
  | .posInf, .negInf => .posInf
  | .negInf, .posInf => .negInf
  | .negInf, .negInf => .nan

/-- Math.round: rounds a finite value half toward positive infinity,
fixes NaN and the infinities. -/
def jsRound : JSNum → JSNum
  | .finite q => .finite ((⌊q + 1 / 2⌋ : ℤ) : ℚ)
  | .posInf => .posInf
  | .negInf => .negInf
  | .nan => .nan

/-- JavaScript ToString of a number as used by the template literals of the
program. Exact for integral values and the special values, which are the
only numbers the theorems evaluate it at (every displayed number is either
an integral Math.round result or a raw integral response field); a
non-integral finite value is rendered from its reduced fraction, an
approximation of the shortest-decimal float output that no theorem relies
on. -/
def jsToString : JSNum → String
  | .finite q => if q.den = 1 then toString q.num
      else toString q.num ++ "/" ++ toString q.den
  | .posInf => "Infinity"
  | .negInf => "-Infinity"
  | .nan => "NaN"

/-- String.prototype.trim: removes whitespace from both ends. JavaScript
strips all Unicode whitespace; the tokens this program trims only carry
ASCII whitespace, covered by Char.isWhitespace. -/
def jsTrim (s : String) : String :=
  ⟨((s.data.dropWhile Char.isWhitespace).reverse.dropWhile
      Char.isWhitespace).reverse⟩

/-- The background colour of the status bar item: undefined, the warning
theme colour, or the error theme colour. -/
inductive BgColor where
  | noColor : BgColor
  | warning : BgColor
  | error : BgColor
deriving DecidableEq

/-- The mutable fields of ChutesQuotaMonitor that the quota-refresh state
machine touches, together with the status bar item it owns. Date values
are modelled as natural-number ticks. -/
structure MonitorState where
  isRefreshing : Bool
  cachedQuota : Option JSNum
  cachedUsed : Option JSNum
  cachedPercentage : Option JSNum
  lastSuccessfulUpdate : Option Nat
  text : String
  tooltip : String
  background : BgColor
deriving DecidableEq

/-- The monitor at construction: the flag down, every cached field null,
the status bar item still empty. -/
def initState : MonitorState :=
  ⟨false, none, none, none, none, "", "", .noColor⟩

/-- Date.toLocaleTimeString, whose exact output is environment dependent;
modelled as a deterministic rendering of the tick. -/
def toLocaleTimeString (t : Nat) : String := toString t

/-- createTooltip (lines 204 to 211 of extension.ts). -/
def createTooltip (quota used remaining percentage : JSNum) : String :=
  "Daily Quota Usage\n\nTotal: " ++ jsToString quota
    ++ "\nUsed: " ++ jsToString (jsRound used)
    ++ "\nRemaining: " ++ jsToString (jsRound remaining)
    ++ "\nUsage: " ++ jsToString percentage ++ "%"

/-- updateStatusBarDisplay (lines 213 to 227): overwrites the four cached
fields and renders the normal display. -/
def updateStatusBarDisplay (s : MonitorState) (quota used percentage : JSNum)
    (now : Nat) : MonitorState :=
  { s with
    cachedQuota := some quota
    cachedUsed := some used
    cachedPercentage := some percentage
    lastSuccessfulUpdate := some now
    text := "$(pulse) Chutes: " ++ jsToString (jsRound used) ++ "/"
      ++ jsToString quota ++ " (" ++ jsToString percentage ++ "%)"
    tooltip := createTooltip quota used (jsSub quota used) percentage
    background := .noColor }

/-- hasCachedData (lines 229 to 231). -/
def hasCachedData (s : MonitorState) : Bool :=
  s.cachedQuota.isSome && s.cachedUsed.isSome && s.cachedPercentage.isSome

/-- showCachedDataWithRefreshIndicator (lines 233 to 243): when all three
cached fields are non-null, shows them with the spinning icon and appends
a refreshing note to the tooltip; otherwise leaves the item untouched. -/
def showCachedDataWithRefreshIndicator (s : MonitorState) : MonitorState :=
  match s.cachedQuota, s.cachedUsed, s.cachedPercentage with
  | some q, some u, some p =>
      { s with
        text := "$(sync~spin) Chutes: " ++ jsToString (jsRound u) ++ "/"
          ++ jsToString q ++ " (" ++ jsToString p ++ "%)"
        tooltip := createTooltip q u (jsSub q u) p ++ "\n\nRefreshing..." }
  | _, _, _ => s

/-- The shapes an axios rejection can take, as the classifier in
handleError distinguishes them: an HTTP response with a status and a
status text, a request that got no response, a failure before the request
was sent carrying the axios message, a plain Error carrying its message,
or anything else. -/
inductive FetchError where
  | httpResponse : Nat → String → FetchError
  | requestNoResponse : FetchError
  | requestSetup : String → FetchError
  | plainError : String → FetchError
  | nonError : FetchError
deriving DecidableEq

/-- The classification pass of handleError (lines 245 to 288): produces
the errorMessage and the statusText local variables. On the request-setup,
plain-Error and unknown branches the statusText keeps its initial value. -/
def classifyError : FetchError → String × String
  | .httpResponse 401 _ =>
      ("Invalid API token. Please check your configuration.",
       "$(error) Chutes: Invalid Token")
  | .httpResponse 403 _ =>
      ("Access forbidden. Please verify your API token permissions.",
       "$(error) Chutes: Forbidden")
  | .httpResponse 429 _ =>
      ("Rate limit exceeded. Please try again later.",
       "$(error) Chutes: Rate Limited")
  | .httpResponse 500 _ | .httpResponse 502 _ | .httpResponse 503 _
  | .httpResponse 504 _ =>
      ("Chutes.ai API is currently unavailable. Please try again later.",
       "$(error) Chutes: API Down")
  | .httpResponse status reasonText =>
      ("API error (" ++ toString status ++ "): " ++ reasonText,
       "$(error) Chutes: API Error")
  | .requestNoResponse =>
      ("Network error. Please check your internet connection.",
       "$(error) Chutes: Network Error")
  | .requestSetup msg => ("Request error: " ++ msg, "$(error) Chutes: Error")
  | .plainError msg => (msg, "$(error) Chutes: Error")
  | .nonError => ("Unknown error occurred", "$(error) Chutes: Error")

/-- handleError (lines 245 to 316): classifies the error, then either shows
the cached numbers with the error icon and a tooltip carrying the last
update time and the message, or, with no cache, the short category label
and a generic retry tooltip. Never writes any cached field. -/
def handleError (s : MonitorState) (e : FetchError) : MonitorState :=
  let errorMessage := (classifyError e).1
  let statusText := (classifyError e).2
  match s.cachedQuota, s.cachedUsed, s.cachedPercentage with
  | some q, some u, some p =>
      let remaining := jsSub q u
      let baseTooltip := createTooltip q u remaining p
      let tip :=
        match s.lastSuccessfulUpdate with
        | some t => baseTooltip ++ "\n\nLast updated: " ++ toLocaleTimeString t
            ++ "\nError: " ++ errorMessage
        | none => baseTooltip ++ "\n\nError: " ++ errorMessage
      { s with
        text := "$(error) Chutes: " ++ jsToString (jsRound u) ++ "/"
          ++ jsToString q ++ " (" ++ jsToString p ++ "%)"
        tooltip := tip
        background := .error }
  | _, _, _ =>
      { s with
        text := statusText
        tooltip := "Error fetching quota: " ++ errorMessage
          ++ "\n\nClick to retry or check configuration"
        background := .error }

/-- The outcome the awaited GET request resolves to: a parsed response body
with its quota and used fields, a rejection that handleError classifies, or
a rejection on which handleError itself throws before mutating the display
(the finally clause still runs in that case). -/
inductive FetchOutcome where
  | success : JSNum → JSNum → FetchOutcome
  | failure : FetchError → FetchOutcome
  | failureClassifierThrows : FetchOutcome
deriving DecidableEq

/-- What one updateQuota invocation returns to its environment: the monitor
state it leaves behind, how many GET requests it issued, and whether an
exception escaped it (rejecting its promise). -/
structure RefreshResult where
  state : MonitorState
  fetches : Nat
  uncaught : Bool
deriving DecidableEq

/-- updateQuota (lines 153 to 202), run to completion in isolation: the
in-flight guard, the blank-token early return, raising the flag, the
cached-or-loading interim display, the fetch with its outcome, and the
finally clause that lowers the flag on every path that raised it. -/
def updateQuota (s : MonitorState) (apiToken : String) (outcome : FetchOutcome)
    (now : Nat) : RefreshResult :=
  if s.isRefreshing then ⟨s, 0, false⟩
  else if (jsTrim apiToken).isEmpty then
    ⟨{ s with
        text := "$(warning) Chutes: Setup Required"
        tooltip := "Click to configure your Chutes.ai API token"
        background := .warning }, 0, false⟩
  else
    let s1 : MonitorState := { s with isRefreshing := true }
    let s2 : MonitorState :=
      if hasCachedData s1 then showCachedDataWithRefreshIndicator s1
      else { s1 with
        text := "$(sync~spin) Chutes: Loading..."
        tooltip := "Fetching quota information..."
        background := .noColor }
    match outcome with
    | .success quota used =>
        let percentage := jsRound (jsMul (jsDiv used quota) (.finite 100))
        let s3 := updateStatusBarDisplay s2 quota used percentage now
        ⟨{ s3 with isRefreshing := false }, 1, false⟩
    | .failure e =>
        let s3 := handleError s2 e
        ⟨{ s3 with isRefreshing := false }, 1, false⟩
    | .failureClassifierThrows =>
        ⟨{ s2 with isRefreshing := false }, 1, true⟩

/-- The validateInput callback of the token input box (lines 97 to 105):
blank input and input shorter than 10 characters get a message, anything
else passes. The blank test looks at the trimmed input, the length test at
the raw input. -/
def validateInput (value : String) : Option String :=
  if value.isEmpty ∨ (jsTrim value).length = 0 then some "API token cannot be empty"
  else if value.length < 10 then some "API token seems too short"
  else none

/-- What a run of promptForApiToken leaves behind: a validation message if
the entry was blocked, the token written to the secret store if one was,
and how many updateQuota calls were triggered. -/
structure PromptOutcome where
  validationMessage : Option String
  storedToken : Option String
  refreshCalls : Nat
deriving DecidableEq

/-- promptForApiToken (lines 88 to 115). The input box resolves with the
entry only when validateInput passes (the host blocks submission while a
message is returned); a cancelled box resolves with none. On acceptance the
trimmed entry is stored and one updateQuota call is triggered. -/
def promptForApiToken (entry : Option String) : PromptOutcome :=
  match entry with
  | none => ⟨none, none, 0⟩
  | some v =>
      match validateInput v with
      | some msg => ⟨some msg, none, 0⟩
      | none => ⟨none, some (jsTrim v), 1⟩

/-- An event mutating the monitor state. Every write to the state goes
through updateQuota (the timer, the refresh command, the configuration
listener and the post-prompt refresh all call it); showQuotaDetails only
opens dialogs, and handleStatusBarHover (lines 356 to 371) is dead code,
never invoked. -/
inductive Event where
  | refresh : String → FetchOutcome → Nat → Event
deriving DecidableEq

/-- One event applied to the monitor state. -/
def stepEvent (s : MonitorState) : Event → MonitorState
  | .refresh token outcome now => (updateQuota s token outcome now).state

/-- The monitor state after a history of events from construction. -/
def runEvents (evs : List Event) : MonitorState :=
  evs.foldl stepEvent initState

/-!
Interleaving model of updateQuota, for the single-flight claims. VS Code
extensions are single threaded and event driven: an async function runs
atomically between its await points. updateQuota has exactly two await
points before its fetch resolves — the credential read on line 159 and the
GET on line 179 — so an invocation is the sequence of three atomic
segments delimited by them. Two invocations (a timer tick and a manual or
configuration-triggered refresh) interleave segment by segment.
-/

/-- The program counter of one updateQuota invocation: about to run the
in-flight check (lines 154 to 156) and suspend in the credential read;
holding the credential, about to run the blank check, raise the flag and
dispatch the GET (lines 161 to 188); suspended in the GET; or finished. -/
inductive TaskPC where
  | start : TaskPC
  | tokenRead : TaskPC
  | awaitGet : TaskPC
  | done : TaskPC
deriving DecidableEq

/-- The state shared by the interleaved invocations: the isRefreshing
field, the number of GET requests currently in flight, and the number
issued so far. -/
structure Shared where
  isRefreshing : Bool
  inFlight : Nat
  issued : Nat
deriving DecidableEq

/-- One atomic segment of one updateQuota invocation, as the source orders
its statements: the in-flight check reads the flag before suspending in
the credential read; the next segment raises the flag and dispatches the
GET; the final segment handles the outcome and the finally clause lowers
the flag. -/
def segStep (token : String) (pc : TaskPC) (sh : Shared) : TaskPC × Shared :=
  match pc with
  | .start => if sh.isRefreshing then (.done, sh) else (.tokenRead, sh)
  | .tokenRead =>
      if (jsTrim token).isEmpty then (.done, sh)
      else (.awaitGet,
        { isRefreshing := true, inFlight := sh.inFlight + 1,
          issued := sh.issued + 1 })
  | .awaitGet =>
      (.done, { sh with isRefreshing := false, inFlight := sh.inFlight - 1 })
  | .done => (.done, sh)

/-- Two interleaved updateQuota invocations. -/
structure RaceState where
  shared : Shared
  pc1 : TaskPC
  pc2 : TaskPC
deriving DecidableEq

/-- Run one atomic segment of the chosen invocation (false picks the
first, true the second). -/
def raceStep (token : String) (s : RaceState) (pickSecond : Bool) : RaceState :=
  if pickSecond then
    let r := segStep token s.pc2 s.shared
    ⟨r.2, s.pc1, r.1⟩
  else
    let r := segStep token s.pc1 s.shared
    ⟨r.2, r.1, s.pc2⟩

/-- Both invocations at their first segment, the flag down, no request in
flight, then the given schedule of atomic segments. -/
def raceRun (token : String) (sched : List Bool) : RaceState :=
  sched.foldl (raceStep token) ⟨⟨false, 0, 0⟩, .start, .start⟩

/-!  Helper lemmas. -/

theorem jsToString_intCast (k : ℤ) : jsToString (.finite (k : ℚ)) = toString k := by
  simp [jsToString, Rat.den_intCast, Rat.num_intCast]

theorem jsToString_natCast (n : ℕ) : jsToString (.finite (n : ℚ)) = toString n := by
  have : ((n : ℚ)) = ((n : ℤ) : ℚ) := by push_cast; rfl
  rw [this, jsToString_intCast]; rfl

theorem toString_int_toNat (k : ℤ) (h : 0 ≤ k) : toString k = toString k.toNat := by
  conv_lhs => rw [← Int.toNat_of_nonneg h]
  rfl

theorem jsDiv_finite_of_ne (a b : ℚ) (hb : b ≠ 0) :
    jsDiv (.finite a) (.finite b) = .finite (a / b) := by
  simp [jsDiv, hb]

theorem jsMul_finite (a b : ℚ) : jsMul (.finite a) (.finite b) = .finite (a * b) := rfl

theorem jsRound_finite (q : ℚ) : jsRound (.finite q) = .finite ((⌊q + 1 / 2⌋ : ℤ) : ℚ) := rfl

/-- The state one successful refresh leaves behind, independently of the
interim display that preceded the fetch. -/
theorem updateQuota_success_state (s : MonitorState) (token : String) (q u : JSNum)
    (now : Nat) (hs : s.isRefreshing = false) (ht : (jsTrim token).isEmpty = false) :
    (updateQuota s token (.success q u) now).state =
      { isRefreshing := false
        cachedQuota := some q
        cachedUsed := some u
        cachedPercentage := some (jsRound (jsMul (jsDiv u q) (.finite 100)))
        lastSuccessfulUpdate := some now
        text := "$(pulse) Chutes: " ++ jsToString (jsRound u) ++ "/"
          ++ jsToString q ++ " ("
          ++ jsToString (jsRound (jsMul (jsDiv u q) (.finite 100))) ++ "%)"
        tooltip := createTooltip q u (jsSub q u)
          (jsRound (jsMul (jsDiv u q) (.finite 100)))
        background := .noColor } := by
  simp only [updateQuota, hs, ht]
  rfl

/-- The state one failing refresh leaves behind when every cached field is
populated. -/
theorem updateQuota_failure_cached_state (s : MonitorState) (token : String)
    (e : FetchError) (now : Nat) (q u p : JSNum) (t : Nat)
    (hs : s.isRefreshing = false) (ht : (jsTrim token).isEmpty = false)
    (hq : s.cachedQuota = some q) (hu : s.cachedUsed = some u)
    (hp : s.cachedPercentage = some p) (hl : s.lastSuccessfulUpdate = some t) :
    (updateQuota s token (.failure e) now).state =
      { isRefreshing := false
        cachedQuota := some q
        cachedUsed := some u
        cachedPercentage := some p
        lastSuccessfulUpdate := some t
        text := "$(error) Chutes: " ++ jsToString (jsRound u) ++ "/"
          ++ jsToString q ++ " (" ++ jsToString p ++ "%)"
        tooltip := createTooltip q u (jsSub q u) p ++ "\n\nLast updated: "
          ++ toLocaleTimeString t ++ "\nError: " ++ (classifyError e).1
        background := .error } := by
  rcases s with ⟨sr, sq, su, sp, sl, st, stt, sb⟩
  simp only at hs hq hu hp hl
  subst hs; subst hq; subst hu; subst hp; subst hl
  simp only [updateQuota, ht]
  rfl

/-- handleError never writes a cached field. -/
theorem handleError_cache (s : MonitorState) (e : FetchError) :
    (handleError s e).cachedQuota = s.cachedQuota
    ∧ (handleError s e).cachedUsed = s.cachedUsed
    ∧ (handleError s e).cachedPercentage = s.cachedPercentage
    ∧ (handleError s e).lastSuccessfulUpdate = s.lastSuccessfulUpdate := by
  rcases s with ⟨sr, sq, su, sp, sl, st, stt, sb⟩
  cases sq <;> cases su <;> cases sp <;> cases sl <;> exact ⟨rfl, rfl, rfl, rfl⟩

/-- showCachedDataWithRefreshIndicator never writes a cached field. -/
theorem showCached_cache (s : MonitorState) :
    (showCachedDataWithRefreshIndicator s).cachedQuota = s.cachedQuota
    ∧ (showCachedDataWithRefreshIndicator s).cachedUsed = s.cachedUsed
    ∧ (showCachedDataWithRefreshIndicator s).cachedPercentage = s.cachedPercentage
    ∧ (showCachedDataWithRefreshIndicator s).lastSuccessfulUpdate
        = s.lastSuccessfulUpdate := by
  rcases s with ⟨sr, sq, su, sp, sl, st, stt, sb⟩
  cases sq <;> cases su <;> cases sp <;> exact ⟨rfl, rfl, rfl, rfl⟩

/-!  Claim theorems. -/

/-- C1: the claim says a refresh invoked while a prior refresh is
unresolved issues no network call, even in the window where the first
invocation has passed its in-flight check but, suspended in the
credential read, has not yet set the fetching flag. The code violates
this: with a non-blank stored token, the schedule that runs the second
invocation's in-flight check during the first invocation's credential
read ends with both invocations suspended in their own GET request —
two fetches in flight at once. -/
theorem C1_two_fetches_in_flight :
    (raceRun "valid-token-123" [false, true, false, true]).shared.inFlight = 2
    ∧ (raceRun "valid-token-123" [false, true, false, true]).shared.issued = 2
    ∧ (raceRun "valid-token-123" [false, true, false, true]).pc1 = TaskPC.awaitGet
    ∧ (raceRun "valid-token-123" [false, true, false, true]).pc2 = TaskPC.awaitGet := by
  refine ⟨?_, ?_, ?_, ?_⟩ <;> decide

/-- C2 counterexample: a successful response with quota 0 and used 100 is
not classified as a data error; the refresh renders the normal pulse
display, with no error background, and its text reads an infinite
percentage; with used 0 as well it reads a NaN percentage. -/
theorem C2_no_division_guard :
    (updateQuota initState "valid-token-123"
        (.success (.finite 0) (.finite 100)) 0).state.text
      = "$(pulse) Chutes: 100/0 (Infinity%)"
    ∧ (updateQuota initState "valid-token-123"
        (.success (.finite 0) (.finite 100)) 0).state.background = BgColor.noColor
    ∧ (updateQuota initState "valid-token-123"
        (.success (.finite 0) (.finite 0)) 0).state.text
      = "$(pulse) Chutes: 0/0 (NaN%)" := by
  refine ⟨?_, ?_, ?_⟩ <;>
    · norm_num [updateQuota, initState, jsTrim, hasCachedData,
        updateStatusBarDisplay, jsDiv, jsMul, jsRound, jsToString]
      rfl

/-- C2 amended: with total 0 and positive used in a successful response the
refresh does not crash, but nothing classifies the outcome as a data
error: the normal display is rendered with no error styling, the cached
percentage becomes Infinity and the text ends in an infinite
percentage. -/
theorem C2_total_zero_renders_infinity (s : MonitorState) (token : String)
    (u : ℚ) (now : Nat) (hs : s.isRefreshing = false)
    (ht : (jsTrim token).isEmpty = false) (hu : 0 < u) :
    (updateQuota s token (.success (.finite 0) (.finite u)) now).state.text
      = "$(pulse) Chutes: " ++ jsToString (jsRound (.finite u)) ++ "/0 (Infinity%)"
    ∧ (updateQuota s token (.success (.finite 0) (.finite u)) now).state.background
      = BgColor.noColor
    ∧ (updateQuota s token (.success (.finite 0) (.finite u)) now).state.cachedPercentage
      = some JSNum.posInf := by
  have hdiv : jsDiv (.finite u) (.finite 0) = .posInf := by
    simp [jsDiv, hu.ne', hu]
  have hmul : jsMul JSNum.posInf (.finite 100) = JSNum.posInf := by
    norm_num [jsMul]
  have h1 := updateQuota_success_state s token (.finite 0) (.finite u) now hs ht
  rw [h1, hdiv, hmul]
  refine ⟨?_, rfl, rfl⟩
  show "$(pulse) Chutes: " ++ jsToString (jsRound (.finite u)) ++ "/"
      ++ jsToString (.finite 0) ++ " (" ++ jsToString (jsRound JSNum.posInf) ++ "%)"
    = "$(pulse) Chutes: " ++ jsToString (jsRound (.finite u)) ++ "/0 (Infinity%)"
  simp only [String.append_assoc]
  congr 2

/-- C2 witness: the amended statement at total 0, used 100, from the fresh
monitor with a stored token. -/
theorem C2_total_zero_renders_infinity_witness :
    (updateQuota initState "valid-token-123"
        (.success (.finite 0) (.finite 100)) 0).state.text
      = "$(pulse) Chutes: " ++ jsToString (jsRound (.finite 100)) ++ "/0 (Infinity%)"
    ∧ (updateQuota initState "valid-token-123"
        (.success (.finite 0) (.finite 100)) 0).state.background = BgColor.noColor
    ∧ (updateQuota initState "valid-token-123"
        (.success (.finite 0) (.finite 100)) 0).state.cachedPercentage
      = some JSNum.posInf :=
  C2_total_zero_renders_infinity initState "valid-token-123" 100 0 rfl
    (by decide) (by norm_num)

/-- C3: for a valid snapshot, positive integral total and nonnegative used,
the normal display text is the static pulse glyph followed by the core
pattern of three integers, the first the rounded used, the second the
total, the third the rounded percentage of used over total; and the
concrete snapshot total 2000, used 380 renders the core 380/2000 (19%). -/
theorem C3_renderNormal_pattern :
    (∀ (t : ℕ) (u : ℚ) (s : MonitorState) (token : String) (now : Nat),
        s.isRefreshing = false → (jsTrim token).isEmpty = false →
        0 < t → 0 ≤ u →
        ∃ a b c : ℕ,
          (updateQuota s token (.success (.finite t) (.finite u)) now).state.text
            = "$(pulse) Chutes: " ++ toString a ++ "/" ++ toString b ++ " ("
              ++ toString c ++ "%)"
          ∧ (a : ℤ) = ⌊u + 1 / 2⌋ ∧ b = t ∧ (c : ℤ) = ⌊u / t * 100 + 1 / 2⌋)
    ∧ (updateQuota initState "valid-token-123"
        (.success (.finite 2000) (.finite 380)) 0).state.text
      = "$(pulse) Chutes: 380/2000 (19%)" := by
  constructor
  · intro t u s token now hs ht htpos hu
    have ht0 : ((t : ℚ)) ≠ 0 := Nat.cast_ne_zero.mpr htpos.ne'
    have hA : (0 : ℤ) ≤ ⌊u + 1 / 2⌋ := Int.le_floor.mpr (by push_cast; linarith)
    have hdivnn : (0 : ℚ) ≤ u / t :=
      div_nonneg hu (by positivity)
    have hC : (0 : ℤ) ≤ ⌊u / t * 100 + 1 / 2⌋ :=
      Int.le_floor.mpr (by push_cast; nlinarith)
    have h1 := updateQuota_success_state s token (.finite t) (.finite u) now hs ht
    refine ⟨(⌊u + 1 / 2⌋).toNat, t, (⌊u / t * 100 + 1 / 2⌋).toNat, ?_,
      Int.toNat_of_nonneg hA, rfl, Int.toNat_of_nonneg hC⟩
    rw [h1]
    show "$(pulse) Chutes: " ++ jsToString (jsRound (.finite u)) ++ "/"
        ++ jsToString (.finite t) ++ " ("
        ++ jsToString (jsRound (jsMul (jsDiv (.finite u) (.finite t)) (.finite 100)))
        ++ "%)" = _
    rw [jsDiv_finite_of_ne u t ht0, jsMul_finite, jsRound_finite, jsRound_finite,
      jsToString_intCast, jsToString_intCast, jsToString_natCast,
      toString_int_toNat _ hA, toString_int_toNat _ hC]
  · norm_num [updateQuota, initState, jsTrim, hasCachedData,
      updateStatusBarDisplay, jsDiv, jsMul, jsRound, jsToString]
    rfl

/-- C3 witness: the universal part applied to the concrete snapshot total
2000, used 380 from the fresh monitor. -/
theorem C3_renderNormal_pattern_witness :
    ∃ a b c : ℕ,
      (updateQuota initState "valid-token-123"
          (.success (.finite 2000) (.finite 380)) 0).state.text
        = "$(pulse) Chutes: " ++ toString a ++ "/" ++ toString b ++ " ("
          ++ toString c ++ "%)"
      ∧ (a : ℤ) = ⌊(380 : ℚ) + 1 / 2⌋ ∧ b = 2000
      ∧ (c : ℤ) = ⌊(380 : ℚ) / 2000 * 100 + 1 / 2⌋ :=
  C3_renderNormal_pattern.1 2000 380 initState "valid-token-123" 0 rfl
    (by decide) (by norm_num) (by norm_num)

/-- C5: whatever the fetch outcome — success, a classified failure, or a
failure on which the classifier itself throws — a refresh that raised the
fetching flag lowers it again before completing, and issued exactly one
request. -/
theorem C5_flag_always_cleared (s : MonitorState) (token : String)
    (outcome : FetchOutcome) (now : Nat)
    (hs : s.isRefreshing = false) (ht : (jsTrim token).isEmpty = false) :
    (updateQuota s token outcome now).state.isRefreshing = false
    ∧ (updateQuota s token outcome now).fetches = 1 := by
  cases outcome <;> · simp only [updateQuota, hs, ht]; exact ⟨rfl, rfl⟩

/-- C5 witness: the flag is down after a refresh whose classifier threw. -/
theorem C5_flag_always_cleared_witness :
    (updateQuota initState "valid-token-123" .failureClassifierThrows 0).state.isRefreshing
      = false
    ∧ (updateQuota initState "valid-token-123" .failureClassifierThrows 0).fetches = 1 :=
  C5_flag_always_cleared initState "valid-token-123" .failureClassifierThrows 0 rfl
    (by decide)

/-- C7: a refresh finding a blank stored credential renders the setup
display with the warning background, issues no request, and never raises
the fetching flag. -/
theorem C7_blank_token_setup_required (s : MonitorState) (token : String)
    (outcome : FetchOutcome) (now : Nat)
    (hs : s.isRefreshing = false) (ht : (jsTrim token).isEmpty = true) :
    (updateQuota s token outcome now).state.text = "$(warning) Chutes: Setup Required"
    ∧ (updateQuota s token outcome now).state.tooltip
      = "Click to configure your Chutes.ai API token"
    ∧ (updateQuota s token outcome now).state.background = BgColor.warning
    ∧ (updateQuota s token outcome now).fetches = 0
    ∧ (updateQuota s token outcome now).state.isRefreshing = false := by
  have h : updateQuota s token outcome now =
      ⟨{ s with
          text := "$(warning) Chutes: Setup Required"
          tooltip := "Click to configure your Chutes.ai API token"
          background := .warning }, 0, false⟩ := by
    unfold updateQuota
    rw [if_neg (by simp [hs]), if_pos ht]
  rw [h]
  exact ⟨rfl, rfl, rfl, rfl, hs⟩

/-- C7 witness: the setup display after a refresh with a whitespace-only
token. -/
theorem C7_blank_token_setup_required_witness :
    (updateQuota initState "   " (.failure .requestNoResponse) 0).state.text
      = "$(warning) Chutes: Setup Required"
    ∧ (updateQuota initState "   " (.failure .requestNoResponse) 0).state.tooltip
      = "Click to configure your Chutes.ai API token"
    ∧ (updateQuota initState "   " (.failure .requestNoResponse) 0).state.background
      = BgColor.warning
    ∧ (updateQuota initState "   " (.failure .requestNoResponse) 0).fetches = 0
    ∧ (updateQuota initState "   " (.failure .requestNoResponse) 0).state.isRefreshing
      = false :=
  C7_blank_token_setup_required initState "   " (.failure .requestNoResponse) 0 rfl
    (by decide)

/-- The monitor state after one successful refresh. -/
def afterSuccess (s : MonitorState) (token : String) (q u : JSNum)
    (n1 : Nat) : MonitorState :=
  (updateQuota s token (.success q u) n1).state

/-- The monitor state after a successful refresh followed by a failing
one. -/
def afterSuccessThenFailure (s : MonitorState) (token : String) (q u : JSNum)
    (e : FetchError) (n1 n2 : Nat) : MonitorState :=
  (updateQuota (afterSuccess s token q u n1) token (.failure e) n2).state

/-- C4: a failing fetch after a successful one leaves all four cached
fields exactly as the success wrote them, still renders the last
successful used and total pair in the text, and carries the failure
message in the tooltip. -/
theorem C4_failure_preserves_cache (s : MonitorState) (token : String)
    (q u : JSNum) (e : FetchError) (n1 n2 : Nat)
    (hs : s.isRefreshing = false) (ht : (jsTrim token).isEmpty = false) :
    (afterSuccessThenFailure s token q u e n1 n2).cachedQuota
      = (afterSuccess s token q u n1).cachedQuota
    ∧ (afterSuccessThenFailure s token q u e n1 n2).cachedUsed
      = (afterSuccess s token q u n1).cachedUsed
    ∧ (afterSuccessThenFailure s token q u e n1 n2).cachedPercentage
      = (afterSuccess s token q u n1).cachedPercentage
    ∧ (afterSuccessThenFailure s token q u e n1 n2).lastSuccessfulUpdate
      = (afterSuccess s token q u n1).lastSuccessfulUpdate
    ∧ (afterSuccess s token q u n1).cachedQuota = some q
    ∧ (afterSuccess s token q u n1).cachedUsed = some u
    ∧ (∃ pre post, (afterSuccessThenFailure s token q u e n1 n2).text
        = pre ++ (jsToString (jsRound u) ++ "/" ++ jsToString q) ++ post)
    ∧ (∃ t1, (afterSuccessThenFailure s token q u e n1 n2).tooltip
        = t1 ++ (classifyError e).1) := by
  have h1 : afterSuccess s token q u n1 = _ :=
    updateQuota_success_state s token q u n1 hs ht
  have h2 : afterSuccessThenFailure s token q u e n1 n2 = _ :=
    updateQuota_failure_cached_state (afterSuccess s token q u n1) token e n2 q u
      (jsRound (jsMul (jsDiv u q) (.finite 100))) n1
      (by rw [h1]) ht (by rw [h1]) (by rw [h1]) (by rw [h1]) (by rw [h1])
  rw [h1, h2]
  refine ⟨rfl, rfl, rfl, rfl, rfl, rfl,
    ⟨"$(error) Chutes: ",
     " (" ++ jsToString (jsRound (jsMul (jsDiv u q) (.finite 100))) ++ "%)", ?_⟩,
    ⟨createTooltip q u (jsSub q u) (jsRound (jsMul (jsDiv u q) (.finite 100)))
      ++ "\n\nLast updated: " ++ toLocaleTimeString n1 ++ "\nError: ", rfl⟩⟩
  simp only [String.append_assoc]

/-- C4 witness: the concrete run with total 2000, used 380 followed by a
network error from the fresh monitor. -/
theorem C4_failure_preserves_cache_witness :
    (afterSuccessThenFailure initState "valid-token-123" (.finite 2000)
        (.finite 380) .requestNoResponse 1 2).cachedQuota
      = (afterSuccess initState "valid-token-123" (.finite 2000) (.finite 380) 1).cachedQuota
    ∧ (afterSuccessThenFailure initState "valid-token-123" (.finite 2000)
        (.finite 380) .requestNoResponse 1 2).cachedUsed
      = (afterSuccess initState "valid-token-123" (.finite 2000) (.finite 380) 1).cachedUsed
    ∧ (afterSuccessThenFailure initState "valid-token-123" (.finite 2000)
        (.finite 380) .requestNoResponse 1 2).cachedPercentage
      = (afterSuccess initState "valid-token-123" (.finite 2000) (.finite 380) 1).cachedPercentage
    ∧ (afterSuccessThenFailure initState "valid-token-123" (.finite 2000)
        (.finite 380) .requestNoResponse 1 2).lastSuccessfulUpdate
      = (afterSuccess initState "valid-token-123" (.finite 2000) (.finite 380) 1).lastSuccessfulUpdate
    ∧ (afterSuccess initState "valid-token-123" (.finite 2000) (.finite 380) 1).cachedQuota
      = some (.finite 2000)
    ∧ (afterSuccess initState "valid-token-123" (.finite 2000) (.finite 380) 1).cachedUsed
      = some (.finite 380)
    ∧ (∃ pre post, (afterSuccessThenFailure initState "valid-token-123" (.finite 2000)
        (.finite 380) .requestNoResponse 1 2).text
        = pre ++ (jsToString (jsRound (.finite 380)) ++ "/" ++ jsToString (.finite 2000)) ++ post)
    ∧ (∃ t1, (afterSuccessThenFailure initState "valid-token-123" (.finite 2000)
        (.finite 380) .requestNoResponse 1 2).tooltip
        = t1 ++ (classifyError .requestNoResponse).1) :=
  C4_failure_preserves_cache initState "valid-token-123" (.finite 2000) (.finite 380)
    .requestNoResponse 1 2 rfl (by decide)

/-- C6: a blank entry or one shorter than 10 characters is rejected by the
synchronous validator with a message, stores nothing and triggers no
refresh; a non-blank entry of length at least 10 passes validation, its
trimmed form is stored, and exactly one refresh is triggered. -/
theorem C6_token_validation (v : String) :
    (((jsTrim v).length = 0 ∨ v.length < 10) →
      (validateInput v).isSome = true
      ∧ (promptForApiToken (some v)).storedToken = none
      ∧ (promptForApiToken (some v)).refreshCalls = 0)
    ∧ (¬ (jsTrim v).length = 0 → 10 ≤ v.length →
      validateInput v = none
      ∧ (promptForApiToken (some v)).storedToken = some (jsTrim v)
      ∧ (promptForApiToken (some v)).refreshCalls = 1) := by
  constructor
  · intro h
    have hv : (validateInput v).isSome = true := by
      unfold validateInput
      rcases h with h | h
      · rw [if_pos (Or.inr h)]; rfl
      · by_cases he : v.isEmpty = true ∨ (jsTrim v).length = 0
        · rw [if_pos he]; rfl
        · rw [if_neg he, if_pos h]; rfl
    obtain ⟨msg, hmsg⟩ := Option.isSome_iff_exists.mp hv
    refine ⟨hv, ?_, ?_⟩ <;> simp only [promptForApiToken, hmsg]
  · intro h1 h2
    have he : ¬ (v.isEmpty = true ∨ (jsTrim v).length = 0) := by
      rintro (he | he)
      · rw [String.isEmpty_iff] at he
        subst he
        exact h1 (by decide)
      · exact h1 he
    have hv : validateInput v = none := by
      unfold validateInput
      rw [if_neg he, if_neg (by omega)]
    refine ⟨hv, ?_, ?_⟩ <;> simp only [promptForApiToken, hv]

/-- C6 witness: the short entry ab is rejected without storage or refresh;
the entry valid-token-123 is accepted, stored and triggers one refresh. -/
theorem C6_token_validation_witness :
    ((validateInput "ab").isSome = true
      ∧ (promptForApiToken (some "ab")).storedToken = none
      ∧ (promptForApiToken (some "ab")).refreshCalls = 0)
    ∧ (validateInput "valid-token-123" = none
      ∧ (promptForApiToken (some "valid-token-123")).storedToken
        = some (jsTrim "valid-token-123")
      ∧ (promptForApiToken (some "valid-token-123")).refreshCalls = 1) :=
  ⟨(C6_token_validation "ab").1 (Or.inr (by decide)),
   (C6_token_validation "valid-token-123").2 (by decide) (by decide)⟩

/-- C10: validation measures the raw entry while storage trims it: the
entry of abc followed by seven spaces has raw length 10 and a non-blank
trim, so it passes validation and is accepted, yet the token actually
stored is abc, three characters, shorter than the minimum the validator
enforces. -/
theorem C10_trim_after_validation :
    validateInput "abc       " = none
    ∧ (promptForApiToken (some "abc       ")).storedToken = some "abc"
    ∧ (promptForApiToken (some "abc       ")).refreshCalls = 1
    ∧ "abc".length < 10 := by
  refine ⟨?_, ?_, ?_, ?_⟩ <;> decide

/-- The cache-consistency invariant of the monitor: the three cached
fields are all present or all absent, a present cache comes with a
timestamp, and a present cached percentage is exactly the rounded
percentage of the cached pair. -/
def cacheConsistent (s : MonitorState) : Prop :=
  s.cachedQuota.isSome = s.cachedUsed.isSome
  ∧ s.cachedQuota.isSome = s.cachedPercentage.isSome
  ∧ (s.cachedQuota.isSome = true → s.lastSuccessfulUpdate.isSome = true)
  ∧ ∀ q u p, s.cachedQuota = some q → s.cachedUsed = some u →
      s.cachedPercentage = some p → p = jsRound (jsMul (jsDiv u q) (.finite 100))

/-- A failing refresh does not write any cached field. -/
theorem updateQuota_failure_cache (s : MonitorState) (token : String)
    (e : FetchError) (now : Nat)
    (hs : s.isRefreshing = false) (ht : (jsTrim token).isEmpty = false) :
    (updateQuota s token (.failure e) now).state.cachedQuota = s.cachedQuota
    ∧ (updateQuota s token (.failure e) now).state.cachedUsed = s.cachedUsed
    ∧ (updateQuota s token (.failure e) now).state.cachedPercentage = s.cachedPercentage
    ∧ (updateQuota s token (.failure e) now).state.lastSuccessfulUpdate
      = s.lastSuccessfulUpdate := by
  rcases s with ⟨sr, sq, su, sp, sl, st, stt, sb⟩
  simp only at hs
  subst hs
  unfold updateQuota
  rw [if_neg (by simp), if_neg (by simp [ht])]
  rcases sq with _ | q <;> rcases su with _ | u <;> rcases sp with _ | p <;>
    rcases sl with _ | t <;> exact ⟨rfl, rfl, rfl, rfl⟩

/-- A refresh whose error classifier throws does not write any cached
field either. -/
theorem updateQuota_throws_cache (s : MonitorState) (token : String) (now : Nat)
    (hs : s.isRefreshing = false) (ht : (jsTrim token).isEmpty = false) :
    (updateQuota s token .failureClassifierThrows now).state.cachedQuota = s.cachedQuota
    ∧ (updateQuota s token .failureClassifierThrows now).state.cachedUsed = s.cachedUsed
    ∧ (updateQuota s token .failureClassifierThrows now).state.cachedPercentage
      = s.cachedPercentage
    ∧ (updateQuota s token .failureClassifierThrows now).state.lastSuccessfulUpdate
      = s.lastSuccessfulUpdate := by
  rcases s with ⟨sr, sq, su, sp, sl, st, stt, sb⟩
  simp only at hs
  subst hs
  unfold updateQuota
  rw [if_neg (by simp), if_neg (by simp [ht])]
  rcases sq with _ | q <;> rcases su with _ | u <;> rcases sp with _ | p <;>
    exact ⟨rfl, rfl, rfl, rfl⟩

/-- One refresh preserves the cache-consistency invariant. -/
theorem cacheConsistent_updateQuota (s : MonitorState) (token : String)
    (outcome : FetchOutcome) (now : Nat) (h : cacheConsistent s) :
    cacheConsistent (updateQuota s token outcome now).state := by
  obtain ⟨h1, h2, h3, h4⟩ := h
  by_cases hsr : s.isRefreshing = true
  · have heq : updateQuota s token outcome now = ⟨s, 0, false⟩ := by
      unfold updateQuota; rw [if_pos hsr]
    rw [heq]
    exact ⟨h1, h2, h3, h4⟩
  simp only [Bool.not_eq_true] at hsr
  by_cases htok : (jsTrim token).isEmpty = true
  · have heq : updateQuota s token outcome now =
        ⟨{ s with
            text := "$(warning) Chutes: Setup Required"
            tooltip := "Click to configure your Chutes.ai API token"
            background := .warning }, 0, false⟩ := by
      unfold updateQuota; rw [if_neg (by simp [hsr]), if_pos htok]
    rw [heq]
    exact ⟨h1, h2, h3, h4⟩
  simp only [Bool.not_eq_true] at htok
  cases outcome with
  | success q u =>
      rw [updateQuota_success_state s token q u now hsr htok]
      refine ⟨rfl, rfl, fun _ => rfl, fun q' u' p' hq hu hp => ?_⟩
      obtain rfl := Option.some.inj hq
      obtain rfl := Option.some.inj hu
      exact (Option.some.inj hp).symm
  | failure e =>
      obtain ⟨e1, e2, e3, e4⟩ := updateQuota_failure_cache s token e now hsr htok
      unfold cacheConsistent
      rw [e1, e2, e3, e4]
      exact ⟨h1, h2, h3, h4⟩
  | failureClassifierThrows =>
      obtain ⟨e1, e2, e3, e4⟩ := updateQuota_throws_cache s token now hsr htok
      unfold cacheConsistent
      rw [e1, e2, e3, e4]
      exact ⟨h1, h2, h3, h4⟩

/-- Every state reachable from construction satisfies the
cache-consistency invariant. -/
theorem cacheConsistent_runEvents (evs : List Event) :
    cacheConsistent (runEvents evs) := by
  have hgen : ∀ (l : List Event) (s : MonitorState), cacheConsistent s →
      cacheConsistent (l.foldl stepEvent s) := by
    intro l
    induction l with
    | nil => intro s hs; exact hs
    | cons e rest ih =>
        intro s hs
        cases e with
        | refresh token outcome now =>
            exact ih _ (cacheConsistent_updateQuota s token outcome now hs)
  exact hgen evs initState
    ⟨rfl, rfl, fun hc => Bool.noConfusion hc,
     fun q u p hq _ _ => Option.noConfusion hq⟩

/-- Two monitor states agreeing on the cached total and used values but
differing in the separately stored cached percentage. -/
def percDriftA : MonitorState :=
  ⟨false, some (.finite 2000), some (.finite 380), some (.finite 19),
   some 0, "", "", .noColor⟩

/-- percDriftA with the stored percentage changed, the total and used
untouched. -/
def percDriftB : MonitorState :=
  { percDriftA with cachedPercentage := some (.finite 99) }

set_option maxRecDepth 4096 in
/-- C8 counterexample: the percentage is not recomputed from the stored
total and used at display time — it is stored in its own field, which the
refresh-indicator and error renderers read directly: two states with
identical cached total and used but different stored percentages render
different texts. -/
theorem C8_percentage_is_stored_counterexample :
    percDriftA.cachedQuota = percDriftB.cachedQuota
    ∧ percDriftA.cachedUsed = percDriftB.cachedUsed
    ∧ (showCachedDataWithRefreshIndicator percDriftA).text
      ≠ (showCachedDataWithRefreshIndicator percDriftB).text
    ∧ (handleError percDriftA .requestNoResponse).text
      ≠ (handleError percDriftB .requestNoResponse).text := by
  have hA : (showCachedDataWithRefreshIndicator percDriftA).text
      = "$(sync~spin) Chutes: 380/2000 (19%)" := by
    norm_num [showCachedDataWithRefreshIndicator, percDriftA, jsRound, jsToString]
    rfl
  have hB : (showCachedDataWithRefreshIndicator percDriftB).text
      = "$(sync~spin) Chutes: 380/2000 (99%)" := by
    norm_num [showCachedDataWithRefreshIndicator, percDriftB, percDriftA,
      jsRound, jsToString]
    rfl
  have hA2 : (handleError percDriftA .requestNoResponse).text
      = "$(error) Chutes: 380/2000 (19%)" := by
    norm_num [handleError, percDriftA, classifyError, jsRound, jsToString]
    rfl
  have hB2 : (handleError percDriftB .requestNoResponse).text
      = "$(error) Chutes: 380/2000 (99%)" := by
    norm_num [handleError, percDriftB, percDriftA, classifyError, jsRound, jsToString]
    rfl
  refine ⟨rfl, rfl, ?_, ?_⟩
  · rw [hA, hB]; decide
  · rw [hA2, hB2]; decide

/-- C8 amended: although the percentage is cached in its own field rather
than recomputed at display time, every write of that field stores exactly
the rounded percentage of the pair written beside it, so in every
reachable state the stored percentage equals the rounded percentage of the
stored total and used, and the displayed percentage cannot drift. -/
theorem C8_percentage_no_drift (evs : List Event) (q u p : JSNum)
    (hq : (runEvents evs).cachedQuota = some q)
    (hu : (runEvents evs).cachedUsed = some u)
    (hp : (runEvents evs).cachedPercentage = some p) :
    p = jsRound (jsMul (jsDiv u q) (.finite 100)) :=
  (cacheConsistent_runEvents evs).2.2.2 q u p hq hu hp

/-- C8 witness: after the history of one successful refresh with total
2000 and used 380, the stored percentage 19 is the rounded percentage of
the stored pair. -/
theorem C8_percentage_no_drift_witness :
    JSNum.finite 19
      = jsRound (jsMul (jsDiv (.finite 380) (.finite 2000)) (.finite 100)) :=
  C8_percentage_no_drift
    [.refresh "valid-token-123" (.success (.finite 2000) (.finite 380)) 5]
    (.finite 2000) (.finite 380) (.finite 19) rfl rfl
    (by norm_num [runEvents, stepEvent, updateQuota, initState, jsTrim,
          hasCachedData, updateStatusBarDisplay, jsDiv, jsMul, jsRound]
        rfl)

/-- C9: in every reachable state the three cached fields are present or
absent together, and a present cache implies a recorded last successful
update time, so the error-display branch for a present cache with an
absent timestamp can never run. -/
theorem C9_cache_fields_consistent (evs : List Event) :
    (runEvents evs).cachedQuota.isSome = (runEvents evs).cachedUsed.isSome
    ∧ (runEvents evs).cachedQuota.isSome = (runEvents evs).cachedPercentage.isSome
    ∧ (hasCachedData (runEvents evs) = true
        → (runEvents evs).lastSuccessfulUpdate.isSome = true) := by
  obtain ⟨h1, h2, h3, _⟩ := cacheConsistent_runEvents evs
  refine ⟨h1, h2, fun hc => h3 ?_⟩
  unfold hasCachedData at hc
  exact (Bool.and_eq_true_iff.mp (Bool.and_eq_true_iff.mp hc).1).1

/-- C9 witness: after one successful refresh the cache is present and the
timestamp is present with it. -/
theorem C9_cache_fields_consistent_witness :
    (runEvents [Event.refresh "valid-token-123"
        (.success (.finite 2000) (.finite 380)) 5]).lastSuccessfulUpdate.isSome
      = true :=
  (C9_cache_fields_consistent
    [.refresh "valid-token-123" (.success (.finite 2000) (.finite 380)) 5]).2.2 rfl
